import Mathlib

/-!
Verification of the Dynamic-Wa constitutive relations (opm-material).

The development shallowly embeds the two parameter classes
(DynamicWaParams, RegularizedDynamicWaParams) and the two evaluator
classes (DynamicWa, RegularizedDynamicWa) over the real numbers.
The generic C++ Evaluation/Scalar numeric type is instantiated with
the exact reals; Opm pow on nonnegative bases is Real.rpow and Opm min
is the real min.
-/

namespace OpmMaterial

noncomputable section

open Real

/-- Parameter store of the raw Dynamic-Wa law
(DynamicWaParams.hpp).  The eight scalar coefficient fields mirror the
private data members of the C++ class.

Modelled from the spec: the inherited base class EnsureFinalized
(opm/material/common/EnsureFinalized.hpp, not under src/) carries a
single was-finalize-called flag; it is embedded here as the Boolean
field finalized with the meaning that finalize has been called. -/
structure DynamicWaParams where
  entryPressure_ : ℝ
  finalEntryPressure_ : ℝ
  lambda_ : ℝ
  llambda_ : ℝ
  beta_ : ℝ
  eta_ : ℝ
  ei_ : ℝ
  ef_ : ℝ
  finalized : Bool

namespace DynamicWaParams

/-- Modelled from the spec: EnsureFinalized.finalize marks the object
ready for reads by setting the flag; the base parameter class adds no
derived computation of its own. -/
def finalizeBase (p : DynamicWaParams) : DynamicWaParams :=
  { p with finalized := true }

/-- Setter setEntryPressure: pure mutator, no validation. -/
def setEntryPressure (p : DynamicWaParams) (v : ℝ) : DynamicWaParams :=
  { p with entryPressure_ := v }

/-- Setter setFinalEntryPressure. -/
def setFinalEntryPressure (p : DynamicWaParams) (v : ℝ) : DynamicWaParams :=
  { p with finalEntryPressure_ := v }

/-- Setter setBeta. -/
def setBeta (p : DynamicWaParams) (v : ℝ) : DynamicWaParams :=
  { p with beta_ := v }

/-- Setter setEta. -/
def setEta (p : DynamicWaParams) (v : ℝ) : DynamicWaParams :=
  { p with eta_ := v }

/-- Setter setEi. -/
def setEi (p : DynamicWaParams) (v : ℝ) : DynamicWaParams :=
  { p with ei_ := v }

/-- Setter setEf. -/
def setEf (p : DynamicWaParams) (v : ℝ) : DynamicWaParams :=
  { p with ef_ := v }

/-- Setter setLambda. -/
def setLambda (p : DynamicWaParams) (v : ℝ) : DynamicWaParams :=
  { p with lambda_ := v }

/-- Setter setLlambda. -/
def setLlambda (p : DynamicWaParams) (v : ℝ) : DynamicWaParams :=
  { p with llambda_ := v }

/-- Guarded accessor entryPressure: EnsureFinalized.check aborts when
finalize has not been called; the fatal abort is embedded as none.
Modelled from the spec: the check itself lives in EnsureFinalized.hpp,
not under src/. -/
def entryPressure (p : DynamicWaParams) : Option ℝ :=
  if p.finalized then some p.entryPressure_ else none

/-- Guarded accessor finalEntryPressure. -/
def finalEntryPressure (p : DynamicWaParams) : Option ℝ :=
  if p.finalized then some p.finalEntryPressure_ else none

/-- Guarded accessor lambda. -/
def lambda (p : DynamicWaParams) : Option ℝ :=
  if p.finalized then some p.lambda_ else none

/-- Guarded accessor llambda. -/
def llambda (p : DynamicWaParams) : Option ℝ :=
  if p.finalized then some p.llambda_ else none

/-- Unguarded accessor beta: the C++ accessor performs no finalize
check and always returns the stored field. -/
def beta (p : DynamicWaParams) : Option ℝ :=
  some p.beta_

/-- Unguarded accessor eta. -/
def eta (p : DynamicWaParams) : Option ℝ :=
  some p.eta_

/-- Unguarded accessor ei. -/
def ei (p : DynamicWaParams) : Option ℝ :=
  some p.ei_

/-- Unguarded accessor ef. -/
def ef (p : DynamicWaParams) : Option ℝ :=
  some p.ef_

end DynamicWaParams

namespace DynamicWa

/-- Raw capillary pressure curve DynamicWa::twoPhaseSatPcnw
(DynamicWa.hpp lines 151-157), transcribed term for term:
(1 + (pf/pe - 1) * (Sw*Wa) / (beta + Sw*Wa)) * pe * Sw^(-1/lambda).
The guarded accessors succeed on a finalized store and return the
stored fields, which are read directly here; theorems carry the
finalized hypothesis where the guard matters. -/
def twoPhaseSatPcnw (p : DynamicWaParams) (Sw Wa : ℝ) : ℝ :=
  (1 + (p.finalEntryPressure_ / p.entryPressure_ - 1) * (Sw * Wa) / (p.beta_ + Sw * Wa))
    * p.entryPressure_ * Sw ^ (-1 / p.lambda_)

/-- Raw wetting relative permeability DynamicWa::twoPhaseSatKrw
(DynamicWa.hpp lines 177-183):
min(eta*Wa + ei, ef) * Sw^llambda / (1 - Sw + min(eta*Wa + ei, ef) * Sw^llambda). -/
def twoPhaseSatKrw (p : DynamicWaParams) (Sw Wa : ℝ) : ℝ :=
  min (p.eta_ * Wa + p.ei_) p.ef_ * Sw ^ p.llambda_
    / (1 - Sw + min (p.eta_ * Wa + p.ei_) p.ef_ * Sw ^ p.llambda_)

/-- Raw non-wetting relative permeability DynamicWa::twoPhaseSatKrn
(DynamicWa.hpp lines 203-210):
(1 - Sw) / (1 - Sw + min(eta*Wa + ei, ef) * Sw^llambda). -/
def twoPhaseSatKrn (p : DynamicWaParams) (Sw Wa : ℝ) : ℝ :=
  (1 - Sw) / (1 - Sw + min (p.eta_ * Wa + p.ei_) p.ef_ * Sw ^ p.llambda_)

end DynamicWa

/-- Regularized parameter store RegularizedDynamicWaParams
(RegularizedDynamicWaParams.hpp): the base store plus the low
regularization threshold (default 0.01) and the four derived
finalize-time values. -/
structure RegularizedDynamicWaParams where
  base : DynamicWaParams
  pcnwLowSw_ : ℝ
  pcnwLow_ : ℝ
  pcnwSlopeLow_ : ℝ
  pcnwHigh_ : ℝ
  pcnwSlopeHigh_ : ℝ

namespace RegularizedDynamicWaParams

/-- Private helper dPcnw_dSw_ (RegularizedDynamicWaParams.hpp lines
126-150): finite-difference derivative of the unregularized capillary
pressure with respect to Sw, step 1e-7, dynamic variable pinned to 0.
The forward sample is taken only when Sw + eps < 1, the backward
sample only when Sw - eps > 0; delta accumulates eps for each side
actually sampled. -/
def dPcnw_dSw_ (p : RegularizedDynamicWaParams) (Sw : ℝ) : ℝ :=
  let eps : ℝ := 1e-7
  let wa : ℝ := 0
  let pc2 : ℝ :=
    if Sw + eps < 1 then DynamicWa.twoPhaseSatPcnw p.base (Sw + eps) wa
    else DynamicWa.twoPhaseSatPcnw p.base Sw wa
  let d2 : ℝ := if Sw + eps < 1 then eps else 0
  let pc1 : ℝ :=
    if Sw - eps > 0 then DynamicWa.twoPhaseSatPcnw p.base (Sw - eps) wa
    else DynamicWa.twoPhaseSatPcnw p.base Sw wa
  let d1 : ℝ := if Sw - eps > 0 then eps else 0
  (pc2 - pc1) / (d2 + d1)

/-- Setter setPcLowSw. -/
def setPcLowSw (p : RegularizedDynamicWaParams) (v : ℝ) : RegularizedDynamicWaParams :=
  { p with pcnwLowSw_ := v }

/-- RegularizedDynamicWaParams::finalize (lines 69-77): delegates to
the base finalize (which sets the flag), then computes the four
derived values from the raw curve with the dynamic variable pinned
to 0. -/
def finalize (p : RegularizedDynamicWaParams) : RegularizedDynamicWaParams :=
  let b := p.base.finalizeBase
  let p1 : RegularizedDynamicWaParams := { p with base := b }
  { p1 with
    pcnwLow_ := DynamicWa.twoPhaseSatPcnw b p.pcnwLowSw_ 0
    pcnwSlopeLow_ := p1.dPcnw_dSw_ p.pcnwLowSw_
    pcnwHigh_ := DynamicWa.twoPhaseSatPcnw b 1 0
    pcnwSlopeHigh_ := p1.dPcnw_dSw_ 1 }

/-- Guarded accessor pcnwLowSw (checks the inherited flag). -/
def pcnwLowSw (p : RegularizedDynamicWaParams) : Option ℝ :=
  if p.base.finalized then some p.pcnwLowSw_ else none

/-- Guarded accessor pcnwLow. -/
def pcnwLow (p : RegularizedDynamicWaParams) : Option ℝ :=
  if p.base.finalized then some p.pcnwLow_ else none

/-- Guarded accessor pcnwSlopeLow. -/
def pcnwSlopeLow (p : RegularizedDynamicWaParams) : Option ℝ :=
  if p.base.finalized then some p.pcnwSlopeLow_ else none

/-- Guarded accessor pcnwHigh. -/
def pcnwHigh (p : RegularizedDynamicWaParams) : Option ℝ :=
  if p.base.finalized then some p.pcnwHigh_ else none

/-- Guarded accessor pcnwSlopeHigh. -/
def pcnwSlopeHigh (p : RegularizedDynamicWaParams) : Option ℝ :=
  if p.base.finalized then some p.pcnwSlopeHigh_ else none

end RegularizedDynamicWaParams

namespace RegularizedDynamicWa

/-- Regularized capillary pressure
RegularizedDynamicWa::twoPhaseSatPcnw (regularized evaluator, lines
168-203): for Sw at or below the threshold, a straight line anchored
at the raw value at the threshold with a symmetric finite-difference
slope, both recomputed in the call with the passed Wa; for Sw at or
above 1, a straight line anchored at the raw value at 1 with a
one-sided backward difference, again with the passed Wa; otherwise
the raw curve. -/
def twoPhaseSatPcnw (p : RegularizedDynamicWaParams) (Sw Wa : ℝ) : ℝ :=
  let Sthres := p.pcnwLowSw_
  if Sw ≤ Sthres then
    let pcnwSwLow := DynamicWa.twoPhaseSatPcnw p.base Sthres Wa
    let eps : ℝ := 1e-7
    let pc2 := DynamicWa.twoPhaseSatPcnw p.base (Sthres + eps) Wa
    let pc1 := DynamicWa.twoPhaseSatPcnw p.base (Sthres - eps) Wa
    let m := (pc2 - pc1) / (eps + eps)
    pcnwSwLow + m * (Sw - Sthres)
  else if Sw ≥ 1 then
    let pcnwSwHigh := DynamicWa.twoPhaseSatPcnw p.base 1 Wa
    let eps : ℝ := 1e-7
    let pc2 := DynamicWa.twoPhaseSatPcnw p.base 1 Wa
    let pc1 := DynamicWa.twoPhaseSatPcnw p.base (1 - eps) Wa
    let m := (pc2 - pc1) / eps
    pcnwSwHigh + m * (Sw - 1)
  else
    DynamicWa.twoPhaseSatPcnw p.base Sw Wa

/-- Regularized wetting relative permeability
RegularizedDynamicWa::twoPhaseSatKrw (lines 227-236): hard clamp to 0
below 0 and to 1 above 1, raw formula inside. -/
def twoPhaseSatKrw (p : RegularizedDynamicWaParams) (Sw Wa : ℝ) : ℝ :=
  if Sw ≤ 0 then 0
  else if Sw ≥ 1 then 1
  else DynamicWa.twoPhaseSatKrw p.base Sw Wa

/-- Regularized non-wetting relative permeability
RegularizedDynamicWa::twoPhaseSatKrn (lines 261-270): hard clamp to 0
above 1 and to 1 below 0, raw formula inside. -/
def twoPhaseSatKrn (p : RegularizedDynamicWaParams) (Sw Wa : ℝ) : ℝ :=
  if Sw ≥ 1 then 0
  else if Sw ≤ 0 then 1
  else DynamicWa.twoPhaseSatKrn p.base Sw Wa

end RegularizedDynamicWa

/-- A concrete finalized raw parameter store used by witnesses:
entry pressure 2, final entry pressure 6, lambda 1, llambda 1,
beta 1, eta 1, ei 1, ef 1. -/
def wParams : DynamicWaParams :=
  ⟨2, 6, 1, 1, 1, 1, 1, 1, true⟩

/-- A concrete regularized parameter store before finalize:
threshold one half, coefficients as in wParams, derived fields still
at their junk initial values. -/
def wRegParams0 : RegularizedDynamicWaParams :=
  ⟨⟨2, 6, 1, 1, 1, 1, 1, 1, false⟩, 1/2, 0, 0, 0, 0⟩

/-- The same concrete regularized parameter store after finalize. -/
def wRegParams : RegularizedDynamicWaParams :=
  wRegParams0.finalize

/-- Region evaluation lemma: at or below the threshold the
regularized capillary pressure is the per-call linear extrapolation
anchored at the raw value at the threshold, with the symmetric
finite-difference slope, both taken at the Wa passed to the call. -/
theorem reg_pcnw_low_eval (q : RegularizedDynamicWaParams) (Sw Wa : ℝ)
    (h : Sw ≤ q.pcnwLowSw_) :
    RegularizedDynamicWa.twoPhaseSatPcnw q Sw Wa =
      DynamicWa.twoPhaseSatPcnw q.base q.pcnwLowSw_ Wa +
        (DynamicWa.twoPhaseSatPcnw q.base (q.pcnwLowSw_ + 1e-7) Wa -
         DynamicWa.twoPhaseSatPcnw q.base (q.pcnwLowSw_ - 1e-7) Wa) / (1e-7 + 1e-7)
          * (Sw - q.pcnwLowSw_) := by
  simp only [RegularizedDynamicWa.twoPhaseSatPcnw]
  rw [if_pos h]

/-- Region evaluation lemma: at or above saturation 1 (and above the
threshold) the regularized capillary pressure is the per-call linear
extrapolation anchored at the raw value at 1 with the one-sided
backward difference slope at the passed Wa. -/
theorem reg_pcnw_high_eval (q : RegularizedDynamicWaParams) (Sw Wa : ℝ)
    (h : ¬ Sw ≤ q.pcnwLowSw_) (h1 : 1 ≤ Sw) :
    RegularizedDynamicWa.twoPhaseSatPcnw q Sw Wa =
      DynamicWa.twoPhaseSatPcnw q.base 1 Wa +
        (DynamicWa.twoPhaseSatPcnw q.base 1 Wa -
         DynamicWa.twoPhaseSatPcnw q.base (1 - 1e-7) Wa) / 1e-7 * (Sw - 1) := by
  simp only [RegularizedDynamicWa.twoPhaseSatPcnw]
  rw [if_neg h, if_pos h1]

/-- Region evaluation lemma: strictly between the threshold and 1 the
regularized capillary pressure is the raw curve. -/
theorem reg_pcnw_mid_eval (q : RegularizedDynamicWaParams) (Sw Wa : ℝ)
    (h : ¬ Sw ≤ q.pcnwLowSw_) (h1 : ¬ 1 ≤ Sw) :
    RegularizedDynamicWa.twoPhaseSatPcnw q Sw Wa =
      DynamicWa.twoPhaseSatPcnw q.base Sw Wa := by
  simp only [RegularizedDynamicWa.twoPhaseSatPcnw]
  rw [if_neg h, if_neg h1]

/-- With the dynamic variable pinned to 0 the bracket term of the raw
capillary pressure collapses to 1, leaving the pure power law. -/
theorem raw_pcnw_wa_zero (p : DynamicWaParams) (x : ℝ) :
    DynamicWa.twoPhaseSatPcnw p x 0 =
      p.entryPressure_ * x ^ (-1 / p.lambda_) := by
  unfold DynamicWa.twoPhaseSatPcnw
  simp

/-- C2: for every finalized parameter store and every Sw in the unit
interval and every Wa, the raw capillary pressure equals
EntryPressure * Sw^(-1/lambda) * (1 + (FinalEntryPressure/EntryPressure - 1)
* (Sw*Wa) / (beta + Sw*Wa)) in exact real arithmetic, with no guard
against a zero entry pressure or a zero saturation. -/
theorem c2_raw_pcnw_formula (p : DynamicWaParams) (Sw Wa : ℝ)
    (hfin : p.finalized = true) (h0 : 0 ≤ Sw) (h1 : Sw ≤ 1) :
    DynamicWa.twoPhaseSatPcnw p Sw Wa =
      p.entryPressure_ * Sw ^ (-1 / p.lambda_) *
        (1 + (p.finalEntryPressure_ / p.entryPressure_ - 1) * (Sw * Wa)
          / (p.beta_ + Sw * Wa)) := by
  unfold DynamicWa.twoPhaseSatPcnw
  ring

/-- Witness for C2 at the finalized store wParams, Sw = 1/2, Wa = 1. -/
theorem c2_raw_pcnw_formula_witness :
    DynamicWa.twoPhaseSatPcnw wParams (1/2) 1 =
      wParams.entryPressure_ * ((1:ℝ)/2) ^ (-1 / wParams.lambda_) *
        (1 + (wParams.finalEntryPressure_ / wParams.entryPressure_ - 1) * ((1/2) * 1)
          / (wParams.beta_ + (1/2) * 1)) :=
  c2_raw_pcnw_formula wParams (1/2) 1 rfl (by norm_num) (by norm_num)

/-- C3: for every finalized parameter store and every Sw in the unit
interval and every Wa, the raw wetting relative permeability equals
C * Sw^llambda / (1 - Sw + C * Sw^llambda) and the raw non-wetting
relative permeability equals (1 - Sw) / (1 - Sw + C * Sw^llambda)
with the one shared clamped coefficient C = min(eta*Wa + ei, ef)
appearing identically in both formulas. -/
theorem c3_raw_kr_formulas (p : DynamicWaParams) (Sw Wa c : ℝ)
    (hfin : p.finalized = true) (h0 : 0 ≤ Sw) (h1 : Sw ≤ 1)
    (hc : c = min (p.eta_ * Wa + p.ei_) p.ef_) :
    DynamicWa.twoPhaseSatKrw p Sw Wa =
      c * Sw ^ p.llambda_ / (1 - Sw + c * Sw ^ p.llambda_) ∧
    DynamicWa.twoPhaseSatKrn p Sw Wa =
      (1 - Sw) / (1 - Sw + c * Sw ^ p.llambda_) := by
  subst hc
  exact ⟨rfl, rfl⟩

/-- Witness for C3 at the finalized store wParams, Sw = 1/2, Wa = 1. -/
theorem c3_raw_kr_formulas_witness :
    DynamicWa.twoPhaseSatKrw wParams (1/2) 1 =
      min (wParams.eta_ * 1 + wParams.ei_) wParams.ef_ * ((1:ℝ)/2) ^ wParams.llambda_ /
        (1 - 1/2 + min (wParams.eta_ * 1 + wParams.ei_) wParams.ef_ * ((1:ℝ)/2) ^ wParams.llambda_) ∧
    DynamicWa.twoPhaseSatKrn wParams (1/2) 1 =
      (1 - 1/2) /
        (1 - 1/2 + min (wParams.eta_ * 1 + wParams.ei_) wParams.ef_ * ((1:ℝ)/2) ^ wParams.llambda_) :=
  c3_raw_kr_formulas wParams (1/2) 1 _ rfl (by norm_num) (by norm_num) rfl

/-- C6: the regularized relative permeabilities take the exact
physical limits outside the unit interval, for every parameter store
and every Wa: krw is 0 for Sw at or below 0 and 1 for Sw at or above
1, while krn (as a function of the wetting saturation) is 1 for Sw at
or below 0 and 0 for Sw at or above 1. -/
theorem c6_reg_kr_clamps (p : RegularizedDynamicWaParams) (Sw Wa : ℝ) :
    (Sw ≤ 0 → RegularizedDynamicWa.twoPhaseSatKrw p Sw Wa = 0 ∧
              RegularizedDynamicWa.twoPhaseSatKrn p Sw Wa = 1) ∧
    (1 ≤ Sw → RegularizedDynamicWa.twoPhaseSatKrw p Sw Wa = 1 ∧
              RegularizedDynamicWa.twoPhaseSatKrn p Sw Wa = 0) := by
  constructor
  · intro h
    have h1 : ¬ (1:ℝ) ≤ Sw := by linarith
    constructor
    · simp [RegularizedDynamicWa.twoPhaseSatKrw, h]
    · simp [RegularizedDynamicWa.twoPhaseSatKrn, ge_iff_le, h, h1]
  · intro h
    have h0 : ¬ Sw ≤ (0:ℝ) := by linarith
    constructor
    · simp [RegularizedDynamicWa.twoPhaseSatKrw, ge_iff_le, h, h0]
    · simp [RegularizedDynamicWa.twoPhaseSatKrn, ge_iff_le, h]

/-- Witness for C6 at the finalized store wRegParams, Sw = -1 and
Sw = 2. -/
theorem c6_reg_kr_clamps_witness :
    (RegularizedDynamicWa.twoPhaseSatKrw wRegParams (-1) 5 = 0 ∧
     RegularizedDynamicWa.twoPhaseSatKrn wRegParams (-1) 5 = 1) ∧
    (RegularizedDynamicWa.twoPhaseSatKrw wRegParams 2 5 = 1 ∧
     RegularizedDynamicWa.twoPhaseSatKrn wRegParams 2 5 = 0) :=
  ⟨(c6_reg_kr_clamps wRegParams (-1) 5).1 (by norm_num),
   (c6_reg_kr_clamps wRegParams 2 5).2 (by norm_num)⟩

/-- Finalize only sets the flag on the embedded base store; the
coefficient fields pass through unchanged. -/
theorem finalize_base_eq (p : RegularizedDynamicWaParams) :
    p.finalize.base = p.base.finalizeBase := rfl

/-- C4: finalize stores exactly the four derived values obtained from
the raw curve with the dynamic variable pinned to 0: the raw value at
the threshold; the symmetric finite difference with step 1e-7 when
both threshold plus and minus 1e-7 stay inside the open unit
interval, otherwise the corresponding one-sided difference; the raw
value at saturation 1; and the one-sided backward difference at
saturation 1. -/
theorem c4_finalize_derived (p : RegularizedDynamicWaParams) :
    p.finalize.pcnwLow_ =
      DynamicWa.twoPhaseSatPcnw p.finalize.base p.pcnwLowSw_ 0 ∧
    (p.pcnwLowSw_ + 1e-7 < 1 → 0 < p.pcnwLowSw_ - 1e-7 →
      p.finalize.pcnwSlopeLow_ =
        (DynamicWa.twoPhaseSatPcnw p.finalize.base (p.pcnwLowSw_ + 1e-7) 0 -
         DynamicWa.twoPhaseSatPcnw p.finalize.base (p.pcnwLowSw_ - 1e-7) 0) / (2 * 1e-7)) ∧
    (¬ (p.pcnwLowSw_ + 1e-7 < 1) → 0 < p.pcnwLowSw_ - 1e-7 →
      p.finalize.pcnwSlopeLow_ =
        (DynamicWa.twoPhaseSatPcnw p.finalize.base p.pcnwLowSw_ 0 -
         DynamicWa.twoPhaseSatPcnw p.finalize.base (p.pcnwLowSw_ - 1e-7) 0) / 1e-7) ∧
    (p.pcnwLowSw_ + 1e-7 < 1 → ¬ (0 < p.pcnwLowSw_ - 1e-7) →
      p.finalize.pcnwSlopeLow_ =
        (DynamicWa.twoPhaseSatPcnw p.finalize.base (p.pcnwLowSw_ + 1e-7) 0 -
         DynamicWa.twoPhaseSatPcnw p.finalize.base p.pcnwLowSw_ 0) / 1e-7) ∧
    p.finalize.pcnwHigh_ =
      DynamicWa.twoPhaseSatPcnw p.finalize.base 1 0 ∧
    p.finalize.pcnwSlopeHigh_ =
      (DynamicWa.twoPhaseSatPcnw p.finalize.base 1 0 -
       DynamicWa.twoPhaseSatPcnw p.finalize.base (1 - 1e-7) 0) / 1e-7 := by
  refine ⟨rfl, ?_, ?_, ?_, rfl, ?_⟩
  · intro hhi hlo
    show RegularizedDynamicWaParams.dPcnw_dSw_ _ p.pcnwLowSw_ = _
    simp only [RegularizedDynamicWaParams.dPcnw_dSw_]
    rw [if_pos hhi, if_pos hhi, if_pos hlo, if_pos hlo, finalize_base_eq]
    norm_num
  · intro hhi hlo
    show RegularizedDynamicWaParams.dPcnw_dSw_ _ p.pcnwLowSw_ = _
    simp only [RegularizedDynamicWaParams.dPcnw_dSw_]
    rw [if_neg hhi, if_neg hhi, if_pos hlo, if_pos hlo, finalize_base_eq]
    norm_num
  · intro hhi hlo
    show RegularizedDynamicWaParams.dPcnw_dSw_ _ p.pcnwLowSw_ = _
    simp only [RegularizedDynamicWaParams.dPcnw_dSw_]
    rw [if_pos hhi, if_pos hhi, if_neg hlo, if_neg hlo, finalize_base_eq]
    norm_num
  · show RegularizedDynamicWaParams.dPcnw_dSw_ _ 1 = _
    simp only [RegularizedDynamicWaParams.dPcnw_dSw_]
    rw [if_neg (by norm_num : ¬ ((1:ℝ) + 1e-7 < 1)),
        if_neg (by norm_num : ¬ ((1:ℝ) + 1e-7 < 1)),
        if_pos (by norm_num : (1:ℝ) - 1e-7 > 0),
        if_pos (by norm_num : (1:ℝ) - 1e-7 > 0), finalize_base_eq]
    norm_num

/-- Witness for C4 at the concrete store wRegParams0, whose threshold
one half keeps both finite-difference samples inside the open unit
interval. -/
theorem c4_finalize_derived_witness :
    wRegParams0.pcnwLowSw_ + 1e-7 < 1 ∧ 0 < wRegParams0.pcnwLowSw_ - 1e-7 ∧
    wRegParams0.finalize.pcnwSlopeLow_ =
      (DynamicWa.twoPhaseSatPcnw wRegParams0.finalize.base (wRegParams0.pcnwLowSw_ + 1e-7) 0 -
       DynamicWa.twoPhaseSatPcnw wRegParams0.finalize.base (wRegParams0.pcnwLowSw_ - 1e-7) 0)
        / (2 * 1e-7) :=
  ⟨by norm_num [wRegParams0], by norm_num [wRegParams0],
   (c4_finalize_derived wRegParams0).2.1
     (by norm_num [wRegParams0]) (by norm_num [wRegParams0])⟩

/-- C8: for every finalized regularized parameter store whose
threshold lies below 1 and every fixed Wa used consistently in both
curves, the regularized capillary pressure agrees with the raw one
exactly (hence within the finite-difference tolerance) at the two
region boundaries, the threshold and saturation 1. -/
theorem c8_boundary_continuity (q : RegularizedDynamicWaParams) (Wa : ℝ)
    (hfin : q.base.finalized = true) (ht : q.pcnwLowSw_ < 1) :
    RegularizedDynamicWa.twoPhaseSatPcnw q q.pcnwLowSw_ Wa =
      DynamicWa.twoPhaseSatPcnw q.base q.pcnwLowSw_ Wa ∧
    RegularizedDynamicWa.twoPhaseSatPcnw q 1 Wa =
      DynamicWa.twoPhaseSatPcnw q.base 1 Wa := by
  constructor
  · rw [reg_pcnw_low_eval q q.pcnwLowSw_ Wa le_rfl]
    ring
  · rw [reg_pcnw_high_eval q 1 Wa (by linarith) le_rfl]
    ring

/-- Witness for C8 at the finalized store wRegParams with Wa = 3. -/
theorem c8_boundary_continuity_witness :
    RegularizedDynamicWa.twoPhaseSatPcnw wRegParams wRegParams.pcnwLowSw_ 3 =
      DynamicWa.twoPhaseSatPcnw wRegParams.base wRegParams.pcnwLowSw_ 3 ∧
    RegularizedDynamicWa.twoPhaseSatPcnw wRegParams 1 3 =
      DynamicWa.twoPhaseSatPcnw wRegParams.base 1 3 :=
  c8_boundary_continuity wRegParams 3 rfl
    (by norm_num [wRegParams, wRegParams0, RegularizedDynamicWaParams.finalize])

/-- The real power function with a negated nonnegative exponent is
antitone on positive bases. -/
theorem rpow_neg_exp_anti {a b c : ℝ} (ha : 0 < a) (hab : a ≤ b) (hc : 0 ≤ c) :
    b ^ (-c) ≤ a ^ (-c) := by
  rw [Real.rpow_neg (le_trans ha.le hab), Real.rpow_neg ha.le]
  exact inv_anti₀ (Real.rpow_pos_of_pos ha c) (Real.rpow_le_rpow ha.le hab hc)

/-- C9: for coefficients following the negative-slope convention of
the raw curve (positive entry pressure, positive lambda, dynamic
variable 0) and a threshold above the finite-difference step, the
regularized capillary pressure at any Sw at or below the threshold is
at least its value at the threshold: the linear extrapolation does
not decrease capillary pressure as saturation decreases. -/
theorem c9_low_extrapolation_monotone (q : RegularizedDynamicWaParams) (Sw : ℝ)
    (hfin : q.base.finalized = true)
    (hPe : 0 < q.base.entryPressure_) (hlam : 0 < q.base.lambda_)
    (ht : (1e-7:ℝ) < q.pcnwLowSw_) (hSw : Sw ≤ q.pcnwLowSw_) :
    RegularizedDynamicWa.twoPhaseSatPcnw q q.pcnwLowSw_ 0 ≤
      RegularizedDynamicWa.twoPhaseSatPcnw q Sw 0 := by
  rw [reg_pcnw_low_eval q Sw 0 hSw, reg_pcnw_low_eval q q.pcnwLowSw_ 0 le_rfl]
  simp only [raw_pcnw_wa_zero]
  have hneg : -1 / q.base.lambda_ = -(1 / q.base.lambda_) := by ring
  have hkey : q.base.entryPressure_ * (q.pcnwLowSw_ + 1e-7) ^ (-1 / q.base.lambda_) ≤
      q.base.entryPressure_ * (q.pcnwLowSw_ - 1e-7) ^ (-1 / q.base.lambda_) := by
    apply mul_le_mul_of_nonneg_left _ hPe.le
    rw [hneg]
    exact rpow_neg_exp_anti (by linarith) (by linarith) (by positivity)
  have hm : (q.base.entryPressure_ * (q.pcnwLowSw_ + 1e-7) ^ (-1 / q.base.lambda_) -
      q.base.entryPressure_ * (q.pcnwLowSw_ - 1e-7) ^ (-1 / q.base.lambda_))
        / ((1e-7:ℝ) + 1e-7) ≤ 0 := by
    apply div_nonpos_iff.mpr
    right
    exact ⟨by linarith, by norm_num⟩
  rw [sub_self, mul_zero, add_zero]
  have hprod := mul_nonneg (neg_nonneg.2 hm) (neg_nonneg.2 (sub_nonpos.2 hSw))
  rw [neg_mul_neg] at hprod
  linarith

/-- Witness for C9 at the finalized store wRegParams, Sw = 1/4. -/
theorem c9_low_extrapolation_monotone_witness :
    RegularizedDynamicWa.twoPhaseSatPcnw wRegParams wRegParams.pcnwLowSw_ 0 ≤
      RegularizedDynamicWa.twoPhaseSatPcnw wRegParams (1/4) 0 :=
  c9_low_extrapolation_monotone wRegParams (1/4) rfl
    (by norm_num [wRegParams, wRegParams0, RegularizedDynamicWaParams.finalize,
      DynamicWaParams.finalizeBase])
    (by norm_num [wRegParams, wRegParams0, RegularizedDynamicWaParams.finalize,
      DynamicWaParams.finalizeBase])
    (by norm_num [wRegParams, wRegParams0, RegularizedDynamicWaParams.finalize])
    (by norm_num [wRegParams, wRegParams0, RegularizedDynamicWaParams.finalize])

/-- A finalized regularized store on which the two regularized
relative permeabilities do not sum to one at an interior saturation:
eta 0, ei -1, ef 0 make the clamped coefficient -1, and with llambda
1 the shared denominator vanishes at Sw = 1/2. -/
def c10CexParams : RegularizedDynamicWaParams :=
  RegularizedDynamicWaParams.finalize ⟨⟨1, 1, 1, 1, 1, 0, -1, 0, false⟩, 1/100, 0, 0, 0, 0⟩

/-- Counterexample to C10 as stated: on the finalized store
c10CexParams the regularized relative permeabilities at the interior
saturation 1/2 (where the shared denominator is zero) do not sum
to 1. -/
theorem c10_kr_sum_counterexample :
    c10CexParams.base.finalized = true ∧
    RegularizedDynamicWa.twoPhaseSatKrw c10CexParams (1/2) 0 +
      RegularizedDynamicWa.twoPhaseSatKrn c10CexParams (1/2) 0 ≠ 1 := by
  refine ⟨rfl, ?_⟩
  norm_num [RegularizedDynamicWa.twoPhaseSatKrw, RegularizedDynamicWa.twoPhaseSatKrn,
    DynamicWa.twoPhaseSatKrw, DynamicWa.twoPhaseSatKrn, c10CexParams,
    RegularizedDynamicWaParams.finalize, DynamicWaParams.finalizeBase,
    Real.rpow_one, min_def]

/-- C10 amended: the raw relative permeabilities sum to one exactly
whenever the shared denominator is nonzero, and the regularized ones
sum to one for every real Sw that is outside the open unit interval
or at which the shared denominator is nonzero. -/
theorem c10_kr_sum_amended (p : DynamicWaParams) (q : RegularizedDynamicWaParams)
    (Sw Wa : ℝ) (hfinp : p.finalized = true) (hfinq : q.base.finalized = true) :
    (0 ≤ Sw → Sw ≤ 1 →
      1 - Sw + min (p.eta_ * Wa + p.ei_) p.ef_ * Sw ^ p.llambda_ ≠ 0 →
      DynamicWa.twoPhaseSatKrw p Sw Wa + DynamicWa.twoPhaseSatKrn p Sw Wa = 1) ∧
    (Sw ≤ 0 ∨ 1 ≤ Sw ∨
      1 - Sw + min (q.base.eta_ * Wa + q.base.ei_) q.base.ef_ * Sw ^ q.base.llambda_ ≠ 0 →
      RegularizedDynamicWa.twoPhaseSatKrw q Sw Wa +
        RegularizedDynamicWa.twoPhaseSatKrn q Sw Wa = 1) := by
  have key : ∀ r : DynamicWaParams,
      1 - Sw + min (r.eta_ * Wa + r.ei_) r.ef_ * Sw ^ r.llambda_ ≠ 0 →
      DynamicWa.twoPhaseSatKrw r Sw Wa + DynamicWa.twoPhaseSatKrn r Sw Wa = 1 := by
    intro r hD
    unfold DynamicWa.twoPhaseSatKrw DynamicWa.twoPhaseSatKrn
    rw [div_add_div_same,
      show min (r.eta_ * Wa + r.ei_) r.ef_ * Sw ^ r.llambda_ + (1 - Sw) =
        1 - Sw + min (r.eta_ * Wa + r.ei_) r.ef_ * Sw ^ r.llambda_ from by ring]
    exact div_self hD
  refine ⟨fun _ _ hD => key p hD, fun h => ?_⟩
  by_cases h0 : Sw ≤ 0
  · have h1 : ¬ (1:ℝ) ≤ Sw := by linarith
    simp [RegularizedDynamicWa.twoPhaseSatKrw, RegularizedDynamicWa.twoPhaseSatKrn,
      ge_iff_le, h0, h1]
  · by_cases h1 : (1:ℝ) ≤ Sw
    · simp [RegularizedDynamicWa.twoPhaseSatKrw, RegularizedDynamicWa.twoPhaseSatKrn,
        ge_iff_le, h0, h1]
    · have hD := (h.resolve_left h0).resolve_left h1
      unfold RegularizedDynamicWa.twoPhaseSatKrw RegularizedDynamicWa.twoPhaseSatKrn
      rw [if_neg h0, if_neg h1, if_neg h1, if_neg h0]
      exact key q.base hD

/-- Witness for the amended C10 at the finalized stores wParams and
wRegParams, Sw = 1/2, Wa = 0, where the shared denominator is 1. -/
theorem c10_kr_sum_amended_witness :
    DynamicWa.twoPhaseSatKrw wParams (1/2) 0 + DynamicWa.twoPhaseSatKrn wParams (1/2) 0 = 1 ∧
    RegularizedDynamicWa.twoPhaseSatKrw wRegParams (1/2) 0 +
      RegularizedDynamicWa.twoPhaseSatKrn wRegParams (1/2) 0 = 1 :=
  ⟨(c10_kr_sum_amended wParams wRegParams (1/2) 0 rfl rfl).1 (by norm_num) (by norm_num)
      (by norm_num [wParams, Real.rpow_one, min_def]),
   (c10_kr_sum_amended wParams wRegParams (1/2) 0 rfl rfl).2
      (Or.inr (Or.inr (by norm_num [wRegParams, wRegParams0,
        RegularizedDynamicWaParams.finalize, DynamicWaParams.finalizeBase,
        Real.rpow_one, min_def])))⟩

/-- Counterexample to C1 as stated: on the finalized store wRegParams
(threshold one half) at Sw equal to the threshold and Wa = 1, the
regularized capillary pressure differs from
pcnwLow + pcnwSlopeLow * (Sw - threshold), because the evaluator
recomputes the anchor value with the Wa passed at evaluation time
instead of using the derived values pinned at Wa = 0. -/
theorem c1_pinned_extrapolation_counterexample :
    wRegParams.base.finalized = true ∧
    (1:ℝ)/2 ≤ wRegParams.pcnwLowSw_ ∧
    RegularizedDynamicWa.twoPhaseSatPcnw wRegParams (1/2) 1 ≠
      wRegParams.pcnwLow_ + wRegParams.pcnwSlopeLow_ * ((1:ℝ)/2 - wRegParams.pcnwLowSw_) := by
  refine ⟨rfl, by norm_num [wRegParams, wRegParams0, RegularizedDynamicWaParams.finalize], ?_⟩
  rw [reg_pcnw_low_eval wRegParams (1/2) 1
    (by norm_num [wRegParams, wRegParams0, RegularizedDynamicWaParams.finalize])]
  norm_num [wRegParams, wRegParams0, RegularizedDynamicWaParams.finalize,
    DynamicWaParams.finalizeBase, RegularizedDynamicWaParams.dPcnw_dSw_,
    DynamicWa.twoPhaseSatPcnw, Real.rpow_neg_one]

/-- C1 amended: for a regularized store finalized from coefficients
with threshold strictly between the finite-difference step and
1 - 1e-7, and with the dynamic variable 0 passed at evaluation time
(the per-call recomputation then reproduces the derived values pinned
at 0), the regularized capillary pressure at Sw at or below the
threshold equals pcnwLow + pcnwSlopeLow * (Sw - threshold), and at Sw
at or above 1 it equals pcnwHigh + pcnwSlopeHigh * (Sw - 1); for a
nonzero evaluation-time Wa the anchor value and slope are instead
recomputed from that Wa in the call. -/
theorem c1_extrapolation_amended (p : RegularizedDynamicWaParams) (Sw : ℝ)
    (hlo : (1e-7:ℝ) < p.pcnwLowSw_) (hhi : p.pcnwLowSw_ + 1e-7 < 1) :
    (Sw ≤ p.pcnwLowSw_ →
      RegularizedDynamicWa.twoPhaseSatPcnw p.finalize Sw 0 =
        p.finalize.pcnwLow_ + p.finalize.pcnwSlopeLow_ * (Sw - p.pcnwLowSw_)) ∧
    (1 ≤ Sw →
      RegularizedDynamicWa.twoPhaseSatPcnw p.finalize Sw 0 =
        p.finalize.pcnwHigh_ + p.finalize.pcnwSlopeHigh_ * (Sw - 1)) := by
  have hlo2 : p.pcnwLowSw_ - 1e-7 > 0 := by linarith
  constructor
  · intro h
    rw [reg_pcnw_low_eval p.finalize Sw 0 h, finalize_base_eq]
    show _ = DynamicWa.twoPhaseSatPcnw p.base.finalizeBase p.pcnwLowSw_ 0 +
      RegularizedDynamicWaParams.dPcnw_dSw_ _ p.pcnwLowSw_ * (Sw - p.pcnwLowSw_)
    simp only [RegularizedDynamicWaParams.dPcnw_dSw_]
    rw [if_pos hhi, if_pos hhi, if_pos hlo2, if_pos hlo2]
    rfl
  · intro h1
    have hnotlow : ¬ Sw ≤ p.finalize.pcnwLowSw_ := by
      show ¬ Sw ≤ p.pcnwLowSw_
      linarith
    rw [reg_pcnw_high_eval p.finalize Sw 0 hnotlow h1, finalize_base_eq]
    show _ = DynamicWa.twoPhaseSatPcnw p.base.finalizeBase 1 0 +
      RegularizedDynamicWaParams.dPcnw_dSw_ _ 1 * (Sw - 1)
    simp only [RegularizedDynamicWaParams.dPcnw_dSw_]
    rw [if_neg (by norm_num : ¬ ((1:ℝ) + 1e-7 < 1)),
        if_neg (by norm_num : ¬ ((1:ℝ) + 1e-7 < 1)),
        if_pos (by norm_num : (1:ℝ) - 1e-7 > 0),
        if_pos (by norm_num : (1:ℝ) - 1e-7 > 0)]
    norm_num

/-- Witness for the amended C1 at the store wRegParams0 (threshold
one half), Sw = 1/4 in the low region. -/
theorem c1_extrapolation_amended_witness :
    RegularizedDynamicWa.twoPhaseSatPcnw wRegParams0.finalize (1/4) 0 =
      wRegParams0.finalize.pcnwLow_ +
        wRegParams0.finalize.pcnwSlopeLow_ * ((1:ℝ)/4 - wRegParams0.pcnwLowSw_) :=
  (c1_extrapolation_amended wRegParams0 (1/4)
      (by norm_num [wRegParams0]) (by norm_num [wRegParams0])).1
    (by norm_num [wRegParams0])

/-- The concrete parameter store of the scenario in C7: entry
pressure 1000, final entry pressure 5000, lambda 2, beta 1/10, eta 1,
low shape 1/2, high shape 2, llambda 3, threshold 1/100, finalized. -/
def scenarioParams : RegularizedDynamicWaParams :=
  RegularizedDynamicWaParams.finalize
    ⟨⟨1000, 5000, 2, 3, 1/10, 1, 1/2, 2, false⟩, 1/100, 0, 0, 0, 0⟩

/-- C7: in the mid region (threshold below Sw below 1, for a
nonnegative threshold) the regularized evaluator returns exactly the
raw evaluator for capillary pressure, krw and krn; in particular on
the concrete scenario store both the raw and the regularized
capillary pressure at Sw = 1/2 with Wa = 0 equal
1000 * (1/2) ^ (-0.5). -/
theorem c7_mid_passthrough :
    (∀ (q : RegularizedDynamicWaParams) (Sw Wa : ℝ),
      q.base.finalized = true → 0 ≤ q.pcnwLowSw_ → q.pcnwLowSw_ < Sw → Sw < 1 →
      RegularizedDynamicWa.twoPhaseSatPcnw q Sw Wa =
        DynamicWa.twoPhaseSatPcnw q.base Sw Wa ∧
      RegularizedDynamicWa.twoPhaseSatKrw q Sw Wa =
        DynamicWa.twoPhaseSatKrw q.base Sw Wa ∧
      RegularizedDynamicWa.twoPhaseSatKrn q Sw Wa =
        DynamicWa.twoPhaseSatKrn q.base Sw Wa) ∧
    DynamicWa.twoPhaseSatPcnw scenarioParams.base (1/2) 0 =
      1000 * ((1:ℝ)/2) ^ (-(0.5) : ℝ) ∧
    RegularizedDynamicWa.twoPhaseSatPcnw scenarioParams (1/2) 0 =
      1000 * ((1:ℝ)/2) ^ (-(0.5) : ℝ) := by
  have hmain : ∀ (q : RegularizedDynamicWaParams) (Sw Wa : ℝ),
      q.base.finalized = true → 0 ≤ q.pcnwLowSw_ → q.pcnwLowSw_ < Sw → Sw < 1 →
      RegularizedDynamicWa.twoPhaseSatPcnw q Sw Wa =
        DynamicWa.twoPhaseSatPcnw q.base Sw Wa ∧
      RegularizedDynamicWa.twoPhaseSatKrw q Sw Wa =
        DynamicWa.twoPhaseSatKrw q.base Sw Wa ∧
      RegularizedDynamicWa.twoPhaseSatKrn q Sw Wa =
        DynamicWa.twoPhaseSatKrn q.base Sw Wa := by
    intro q Sw Wa hfin ht0 hlo hhi
    refine ⟨reg_pcnw_mid_eval q Sw Wa (not_le.mpr hlo) (not_le.mpr hhi), ?_, ?_⟩
    · unfold RegularizedDynamicWa.twoPhaseSatKrw
      rw [if_neg (by linarith : ¬ Sw ≤ 0), if_neg (by exact not_le.mpr hhi : ¬ Sw ≥ 1)]
    · unfold RegularizedDynamicWa.twoPhaseSatKrn
      rw [if_neg (by exact not_le.mpr hhi : ¬ Sw ≥ 1), if_neg (by linarith : ¬ Sw ≤ 0)]
  have hexp : (-1 / (2:ℝ)) = (-(0.5) : ℝ) := by norm_num
  have hraw : DynamicWa.twoPhaseSatPcnw scenarioParams.base (1/2) 0 =
      1000 * ((1:ℝ)/2) ^ (-(0.5) : ℝ) := by
    show (1 + ((5000:ℝ) / 1000 - 1) * ((1/2) * 0) / (1/10 + (1/2) * 0))
        * 1000 * ((1:ℝ)/2) ^ (-1 / (2:ℝ)) = 1000 * ((1:ℝ)/2) ^ (-(0.5) : ℝ)
    rw [hexp]
    norm_num
  refine ⟨hmain, hraw, ?_⟩
  rw [reg_pcnw_mid_eval scenarioParams (1/2) 0
    (by norm_num [scenarioParams, RegularizedDynamicWaParams.finalize])
    (by norm_num)]
  exact hraw

/-- Witness for C7 at the scenario store, Sw = 1/2, Wa = 0. -/
theorem c7_mid_passthrough_witness :
    RegularizedDynamicWa.twoPhaseSatPcnw scenarioParams (1/2) 0 =
      DynamicWa.twoPhaseSatPcnw scenarioParams.base (1/2) 0 :=
  (c7_mid_passthrough.1 scenarioParams (1/2) 0 rfl
    (by norm_num [scenarioParams, RegularizedDynamicWaParams.finalize])
    (by norm_num [scenarioParams, RegularizedDynamicWaParams.finalize])
    (by norm_num)).1

/-- C5: on a never-finalized store every guarded accessor
(entryPressure, finalEntryPressure, lambda, llambda, and on the
regularized store pcnwLowSw, pcnwLow, pcnwSlopeLow, pcnwHigh,
pcnwSlopeHigh) fails fatally (none); after finalize each guarded
accessor succeeds and returns the stored value, and a value written
by a setter is returned unchanged after finalize; beta, eta, ei and
ef perform no finalize check and succeed even before finalize. -/
theorem c5_finalize_guard (p : DynamicWaParams) (q : RegularizedDynamicWaParams) (v : ℝ) :
    (p.finalized = false →
      p.entryPressure = none ∧ p.finalEntryPressure = none ∧
      p.lambda = none ∧ p.llambda = none) ∧
    (q.base.finalized = false →
      q.pcnwLowSw = none ∧ q.pcnwLow = none ∧ q.pcnwSlopeLow = none ∧
      q.pcnwHigh = none ∧ q.pcnwSlopeHigh = none) ∧
    (p.finalizeBase.entryPressure = some p.entryPressure_ ∧
     p.finalizeBase.finalEntryPressure = some p.finalEntryPressure_ ∧
     p.finalizeBase.lambda = some p.lambda_ ∧
     p.finalizeBase.llambda = some p.llambda_) ∧
    (q.finalize.pcnwLowSw = some q.pcnwLowSw_ ∧
     q.finalize.pcnwLow = some q.finalize.pcnwLow_ ∧
     q.finalize.pcnwSlopeLow = some q.finalize.pcnwSlopeLow_ ∧
     q.finalize.pcnwHigh = some q.finalize.pcnwHigh_ ∧
     q.finalize.pcnwSlopeHigh = some q.finalize.pcnwSlopeHigh_) ∧
    ((p.setEntryPressure v).finalizeBase.entryPressure = some v ∧
     (p.setFinalEntryPressure v).finalizeBase.finalEntryPressure = some v ∧
     (p.setLambda v).finalizeBase.lambda = some v ∧
     (p.setLlambda v).finalizeBase.llambda = some v ∧
     (q.setPcLowSw v).finalize.pcnwLowSw = some v) ∧
    (p.beta = some p.beta_ ∧ p.eta = some p.eta_ ∧
     p.ei = some p.ei_ ∧ p.ef = some p.ef_) := by
  refine ⟨fun h => ?_, fun h => ?_, ?_, ?_, ?_, ?_⟩
  · simp [DynamicWaParams.entryPressure, DynamicWaParams.finalEntryPressure,
      DynamicWaParams.lambda, DynamicWaParams.llambda, h]
  · simp [RegularizedDynamicWaParams.pcnwLowSw, RegularizedDynamicWaParams.pcnwLow,
      RegularizedDynamicWaParams.pcnwSlopeLow, RegularizedDynamicWaParams.pcnwHigh,
      RegularizedDynamicWaParams.pcnwSlopeHigh, h]
  · simp [DynamicWaParams.entryPressure, DynamicWaParams.finalEntryPressure,
      DynamicWaParams.lambda, DynamicWaParams.llambda, DynamicWaParams.finalizeBase]
  · simp [RegularizedDynamicWaParams.pcnwLowSw, RegularizedDynamicWaParams.pcnwLow,
      RegularizedDynamicWaParams.pcnwSlopeLow, RegularizedDynamicWaParams.pcnwHigh,
      RegularizedDynamicWaParams.pcnwSlopeHigh, RegularizedDynamicWaParams.finalize,
      DynamicWaParams.finalizeBase]
  · simp [DynamicWaParams.entryPressure, DynamicWaParams.finalEntryPressure,
      DynamicWaParams.lambda, DynamicWaParams.llambda, DynamicWaParams.finalizeBase,
      DynamicWaParams.setEntryPressure, DynamicWaParams.setFinalEntryPressure,
      DynamicWaParams.setLambda, DynamicWaParams.setLlambda,
      RegularizedDynamicWaParams.pcnwLowSw, RegularizedDynamicWaParams.finalize,
      RegularizedDynamicWaParams.setPcLowSw]
  · simp [DynamicWaParams.beta, DynamicWaParams.eta, DynamicWaParams.ei,
      DynamicWaParams.ef]

/-- Witness for C5 at the concrete never-finalized store
wRegParams0: its guarded lambda accessor fails, its unguarded beta
accessor succeeds, and after finalize the lambda accessor returns the
stored value. -/
theorem c5_finalize_guard_witness :
    wRegParams0.base.finalized = false ∧
    wRegParams0.base.lambda = none ∧
    wRegParams0.base.beta = some wRegParams0.base.beta_ ∧
    wRegParams0.base.finalizeBase.lambda = some wRegParams0.base.lambda_ :=
  ⟨rfl,
   ((c5_finalize_guard wRegParams0.base wRegParams0 7).1 rfl).2.2.1,
   (c5_finalize_guard wRegParams0.base wRegParams0 7).2.2.2.2.2.1,
   (c5_finalize_guard wRegParams0.base wRegParams0 7).2.2.1.2.2.1⟩

end

end OpmMaterial
